import Mathlib

/-!
Verification development for the Noise_IKpsk2 handshake engine of
`src/src/handshake/noise.rs` (a WireGuard handshake core).

The file shallowly embeds the handshake code.  External primitive crates
(BLAKE2s, HMAC, X25519, the AEAD) enter the handshake transitions as an
abstract parameter bundle `Crypto`; the two ChaCha20-Poly1305 AEAD
constructions relevant to the SEAL!/OPEN! macros are in addition embedded
concretely (the legacy libsodium construction the code calls, and the IETF
RFC 8439 construction).  Modules of the repository that are not under
`src/` (device.rs, peer.rs, messages.rs, timestamp.rs, types.rs) are
modelled from the specification and say so in their doc comments.
-/

/-- Byte strings: lists of naturals, one byte per entry (each `< 256` where it
matters). -/
abbrev Bytes := List Nat

/-- Truncation to a 32-bit word. -/
def w32 (n : Nat) : Nat := n % 2 ^ 32

/-- Rotate a 32-bit word left by `c` bits (for `x < 2^32`, `0 < c < 32`). -/
def rotl32 (x c : Nat) : Nat := ((x <<< c) ||| (x >>> (32 - c))) % 2 ^ 32

/-- Word `i` of a ChaCha state packed into one natural number, first word
least significant. -/
def getW (s i : Nat) : Nat := s / 2 ^ (32 * i) % 2 ^ 32

/-- Replace word `i` of a packed ChaCha state. -/
def setW (s i w : Nat) : Nat :=
  s / 2 ^ (32 * (i + 1)) * 2 ^ (32 * (i + 1)) + w % 2 ^ 32 * 2 ^ (32 * i) +
    s % 2 ^ (32 * i)

/-- Pack a list of 32-bit words into one natural number, first word least
significant. -/
def packWords : List Nat → Nat
  | [] => 0
  | w :: ws => w % 2 ^ 32 + 2 ^ 32 * packWords ws

/-- ChaCha20 quarter round acting on positions `i0 i1 i2 i3` of a packed
16-word state (RFC 8439 §2.1). -/
def qround (s : Nat) (i0 i1 i2 i3 : Nat) : Nat :=
  let a := getW s i0
  let b := getW s i1
  let c := getW s i2
  let d := getW s i3
  let a := w32 (a + b)
  let d := rotl32 (d ^^^ a) 16
  let c := w32 (c + d)
  let b := rotl32 (b ^^^ c) 12
  let a := w32 (a + b)
  let d := rotl32 (d ^^^ a) 8
  let c := w32 (c + d)
  let b := rotl32 (b ^^^ c) 7
  setW (setW (setW (setW s i0 a) i1 b) i2 c) i3 d

/-- One ChaCha20 double round: four column rounds then four diagonal rounds. -/
def doubleRound (s : Nat) : Nat :=
  let s := qround s 0 4 8 12
  let s := qround s 1 5 9 13
  let s := qround s 2 6 10 14
  let s := qround s 3 7 11 15
  let s := qround s 0 5 10 15
  let s := qround s 1 6 11 12
  let s := qround s 2 7 8 13
  qround s 3 4 9 14

/-- Ten double rounds (the 20 rounds of ChaCha20). -/
def chachaCore (s : Nat) : Nat :=
  (List.range 10).foldl (fun t _ => doubleRound t) s

/-- The four ChaCha20 constant words `"expand 32-byte k"`. -/
def CHACHA_CONSTS : List Nat := [0x61707865, 0x3320646e, 0x79622d32, 0x6b206574]

/-- Little-endian bytes to 32-bit words, four bytes per word. -/
def bytesToWordsLE : Bytes → List Nat
  | b0 :: b1 :: b2 :: b3 :: rest =>
      (b0 + 2 ^ 8 * b1 + 2 ^ 16 * b2 + 2 ^ 24 * b3) :: bytesToWordsLE rest
  | _ => []

/-- A 32-bit word to four little-endian bytes. -/
def wordBytesLE (w : Nat) : Bytes :=
  [w % 256, w / 2 ^ 8 % 256, w / 2 ^ 16 % 256, w / 2 ^ 24 % 256]

/-- Words to little-endian bytes. -/
def wordsToBytesLE (ws : List Nat) : Bytes :=
  ws.foldr (fun w acc => wordBytesLE w ++ acc) []

/-- The 64-byte ChaCha20 block for a 32-byte key and the four trailing state
words (counter and nonce, whose layout differs between the two variants). -/
def chachaBlockBytes (key : Bytes) (tail4 : List Nat) : Bytes :=
  let p := packWords (CHACHA_CONSTS ++ bytesToWordsLE key ++ tail4)
  let core := chachaCore p
  wordsToBytesLE ((List.range 16).map (fun i => w32 (getW core i + getW p i)))

/-- Trailing state words of the legacy (draft-agl / libsodium
`chacha20poly1305`) variant: a 64-bit block counter then an 8-byte nonce. -/
def origTail (nonce8 : Bytes) (ctr : Nat) : List Nat :=
  [w32 ctr, w32 (ctr / 2 ^ 32)] ++ bytesToWordsLE nonce8

/-- Trailing state words of the IETF (RFC 8439) variant: a 32-bit block
counter then a 12-byte nonce. -/
def ietfTail (nonce12 : Bytes) (ctr : Nat) : List Nat :=
  [w32 ctr] ++ bytesToWordsLE nonce12

/-- ChaCha20 encryption/decryption: XOR the message with the keystream of
blocks 1, 2, … (block 0 is reserved for the Poly1305 key). -/
def chachaXor (key : Bytes) (tail : Nat → List Nat) (m : Bytes) : Bytes :=
  List.zipWith (fun b i => b ^^^ ((chachaBlockBytes key (tail (1 + i / 64))).getD (i % 64) 0))
    m (List.range m.length)

/-- Poly1305 `r` clamping. -/
def clampR (r : Nat) : Nat := r &&& 0x0ffffffc0ffffffc0ffffffc0fffffff

/-- The Poly1305 prime `2^130 - 5`. -/
def POLY_P : Nat := 2 ^ 130 - 5

/-- Structural worker for `chunks16`; the fuel is an upper bound on the
length, so the middle case is never reached from `chunks16`. -/
def chunksGo : Nat → Bytes → List Bytes
  | _, [] => []
  | 0, m => [m]
  | fuel + 1, b :: r => (b :: r.take 15) :: chunksGo fuel (r.drop 15)

/-- Split a byte string into chunks of at most 16 bytes. -/
def chunks16 (m : Bytes) : List Bytes := chunksGo m.length m

/-- Little-endian value of a byte string. -/
def leNum : Bytes → Nat
  | [] => 0
  | b :: bs => b + 256 * leNum bs

/-- The `k` little-endian bytes of `n`. -/
def leBytes (k n : Nat) : Bytes := (List.range k).map (fun i => n / 256 ^ i % 256)

/-- Poly1305 one-time authenticator (RFC 8439 §2.5) over a 32-byte key. -/
def poly1305 (key32 : Bytes) (m : Bytes) : Bytes :=
  let r := clampR (leNum (key32.take 16))
  let s := leNum (key32.drop 16)
  let acc := (chunks16 m).foldl
    (fun a c => ((a + leNum c + 2 ^ (8 * c.length)) * r) % POLY_P) 0
  leBytes 16 ((acc + s) % 2 ^ 128)

/-- Eight little-endian bytes of a length. -/
def le64 (n : Nat) : Bytes := leBytes 8 n

/-- Zero padding up to the next 16-byte boundary (RFC 8439 §2.8). -/
def pad16 (m : Bytes) : Bytes := List.replicate ((16 - m.length % 16) % 16) 0

/-- Poly1305 input of the legacy (draft-agl / libsodium `chacha20poly1305`)
AEAD: `ad ‖ le64(|ad|) ‖ ct ‖ le64(|ct|)`, no padding. -/
def macDataOrig (ad ct : Bytes) : Bytes :=
  ad ++ le64 ad.length ++ ct ++ le64 ct.length

/-- Poly1305 input of the IETF (RFC 8439) AEAD:
`ad ‖ pad16(ad) ‖ ct ‖ pad16(ct) ‖ le64(|ad|) ‖ le64(|ct|)`. -/
def macDataIetf (ad ct : Bytes) : Bytes :=
  ad ++ pad16 ad ++ ct ++ pad16 ct ++ le64 ad.length ++ le64 ct.length

/-- The Poly1305 key: the first 32 bytes of ChaCha20 block 0. -/
def polyKey (key : Bytes) (tail : Nat → List Nat) : Bytes :=
  (chachaBlockBytes key (tail 0)).take 32

/-- The `sodiumoxide::crypto::aead::chacha20poly1305::seal_detached` function
called by the SEAL! macro: the legacy draft-agl AEAD with an 8-byte nonce. -/
def sodium_seal (key nonce8 ad pt : Bytes) : Bytes × Bytes :=
  let ct := chachaXor key (origTail nonce8) pt
  (ct, poly1305 (polyKey key (origTail nonce8)) (macDataOrig ad ct))

/-- The `sodiumoxide::crypto::aead::chacha20poly1305::open_detached` function
called by the OPEN! macro: verify the legacy tag, then decrypt. -/
def sodium_open_detached (key nonce8 ad ct tag : Bytes) : Option Bytes :=
  if poly1305 (polyKey key (origTail nonce8)) (macDataOrig ad ct) = tag then
    some (chachaXor key (origTail nonce8) ct)
  else none

/-- The IETF ChaCha20-Poly1305 AEAD of RFC 8439 (96-bit nonce) — the form the
specification names for the handshake suite. -/
def ietf_seal (key nonce12 ad pt : Bytes) : Bytes × Bytes :=
  let ct := chachaXor key (ietfTail nonce12) pt
  (ct, poly1305 (polyKey key (ietfTail nonce12)) (macDataIetf ad ct))

/-- IETF ChaCha20-Poly1305 opening: verify the RFC 8439 tag, then decrypt. -/
def ietf_open (key nonce12 ad ct tag : Bytes) : Option Bytes :=
  if poly1305 (polyKey key (ietfTail nonce12)) (macDataIetf ad ct) = tag then
    some (chachaXor key (ietfTail nonce12) ct)
  else none

/-- `ZERO_NONCE` from noise.rs: `SIZE_NONCE = 8` zero bytes (the nonce length
of the legacy AEAD, not the 12 bytes of the IETF form). -/
def ZERO_NONCE : Bytes := List.replicate 8 0

/-- A 12-byte all-zero nonce, the zero nonce of the IETF form. -/
def ZERO_NONCE_IETF : Bytes := List.replicate 12 0

/-- Modelled from the spec: error taxonomy of §7 (`types.rs` is not under
`src/`). -/
inductive HandshakeError where
  | decryptionFailure
  | unknownPeer
  | unknownId
  | invalidState
  | replayOrStale
  | floodLimited
  | malformedMessage
deriving DecidableEq, Repr

/-- The SEAL! macro of noise.rs: the legacy AEAD keyed with the 8-byte
`ZERO_NONCE`, returning ciphertext and 16-byte tag. -/
def SEAL (key ad pt : Bytes) : Bytes × Bytes := sodium_seal key ZERO_NONCE ad pt

/-- The OPEN! macro of noise.rs: legacy AEAD opening with the 8-byte
`ZERO_NONCE`, any failure mapped to `DecryptionFailure`. -/
def OPEN (key ad ct tag : Bytes) : Except HandshakeError Bytes :=
  match sodium_open_detached key ZERO_NONCE ad ct tag with
  | some pt => .ok pt
  | none => .error .decryptionFailure

/-- The external primitive suite of noise.rs (BLAKE2s via `HASH!`, HMAC-BLAKE2s
via `HMAC!`, X25519 via x25519_dalek, and the AEAD behind SEAL!/OPEN!),
abstracted as a parameter bundle.  `hash`/`hmac` act on the concatenation of
the macro arguments; `pubOf` is `PublicKey::from(&StaticSecret)`; `dh` is
`StaticSecret::diffie_hellman` returning shared-secret bytes; `aeadSeal`/`opn` are
the SEAL!/OPEN! macro bodies (key, ad, plaintext/ciphertext, tag). -/
structure Crypto where
  hash : Bytes → Bytes
  hmac : Bytes → Bytes → Bytes
  pubOf : Bytes → Bytes
  dh : Bytes → Bytes → Bytes
  aeadSeal : Bytes → Bytes → Bytes → Bytes × Bytes
  opn : Bytes → Bytes → Bytes → Bytes → Option Bytes

/-- The KDF1! macro of noise.rs: `t0 = HMAC(ck, input); t1 = HMAC(t0, 0x01)`. -/
def kdf1 (C : Crypto) (ck input : Bytes) : Bytes :=
  let t0 := C.hmac ck input
  C.hmac t0 [1]

/-- The KDF2! macro of noise.rs: additionally `t2 = HMAC(t0, t1 ‖ 0x02)`. -/
def kdf2 (C : Crypto) (ck input : Bytes) : Bytes × Bytes :=
  let t0 := C.hmac ck input
  let t1 := C.hmac t0 [1]
  (t1, C.hmac t0 (t1 ++ [2]))

/-- The KDF3! macro of noise.rs: additionally `t3 = HMAC(t0, t2 ‖ 0x03)`. -/
def kdf3 (C : Crypto) (ck input : Bytes) : Bytes × Bytes × Bytes :=
  let t0 := C.hmac ck input
  let t1 := C.hmac t0 [1]
  let t2 := C.hmac t0 (t1 ++ [2])
  (t1, t2, C.hmac t0 (t2 ++ [3]))

/-- The KDF chain exactly as the specification words it (§4.1): the tuple
`(t0, t1, t2, t3)` with each byte appended after the prior `t`. -/
def kdfSpecChain (C : Crypto) (ck input : Bytes) : Bytes × Bytes × Bytes × Bytes :=
  let t0 := C.hmac ck input
  let t1 := C.hmac t0 [1]
  let t2 := C.hmac t0 (t1 ++ [2])
  let t3 := C.hmac t0 (t2 ++ [3])
  (t0, t1, t2, t3)

/-- `INITIAL_CK` from noise.rs: the precomputed `Hash(Construction)`. -/
def INITIAL_CK : Bytes :=
  [0x60, 0xe2, 0x6d, 0xae, 0xf3, 0x27, 0xef, 0xc0, 0x2e, 0xc3, 0x35, 0xe2, 0xa0, 0x25, 0xd2, 0xd0,
   0x16, 0xeb, 0x42, 0x06, 0xf8, 0x72, 0x77, 0xf5, 0x2d, 0x38, 0xd1, 0x98, 0x8b, 0x78, 0xcd, 0x36]

/-- `INITIAL_HS` from noise.rs: the precomputed `Hash(C ‖ Identifier)`. -/
def INITIAL_HS : Bytes :=
  [0x22, 0x11, 0xb3, 0x61, 0x08, 0x1a, 0xc5, 0x66, 0x69, 0x12, 0x43, 0xdb, 0x45, 0x8a, 0xd5, 0x32,
   0x2d, 0x9c, 0x6c, 0x66, 0x22, 0x93, 0xe8, 0xb7, 0x0e, 0xe1, 0x9c, 0x65, 0xba, 0x07, 0x9e, 0xf3]

/-- Modelled from the spec: per-peer handshake state of §3 (`peer.rs` is not
under `src/`): `Reset`, or `InitiationSent` holding the transcript hash, the
chaining key, the ephemeral secret and the chosen sender identifier. -/
inductive HState where
  | reset
  | initiationSent (hs ck ephSk : Bytes) (sender : Nat)
deriving DecidableEq, Repr

/-- Modelled from the spec: the 32-byte session key tagged with a 32-bit local
identifier (`Key` of `types.rs`, which is not under `src/`). -/
structure Key where
  id : Nat
  key : Bytes
deriving DecidableEq, Repr

/-- Modelled from the spec: the session key pair of §3 (`KeyPair` of
`types.rs`, not under `src/`).  The `birth: Instant` field is wall-clock time
and is not modelled. -/
structure KeyPair where
  confirmed : Bool
  send : Key
  recv : Key
deriving DecidableEq, Repr

/-- Modelled from the spec: the peer record of §3 (`peer.rs` is not under
`src/`): the peer's static key, the precomputed static-static DH `ss`, the
PSK, the replay lower bound `last_ts`, the flood budget (abstracted to the
boolean "budget exhausted"), the handshake state, and the opaque identifier
`T` returned by `consume_response`. -/
structure Peer where
  pk : Bytes
  ss : Bytes
  psk : Bytes
  last_ts : Bytes
  floodExhausted : Bool
  st : HState
  identifier : Nat
deriving DecidableEq, Repr

/-- Modelled from the spec: the device of §3 (`device.rs` is not under
`src/`): the local static keypair, the peer list (the pk index searches it by
exact key match), and the id index as an association list from 32-bit session
identifiers to peer positions. -/
structure Device where
  sk : Bytes
  pk : Bytes
  peers : List Peer
  ids : List (Nat × Nat)
deriving DecidableEq, Repr

/-- Modelled from the spec: the `Initiation` frame of §4.2 as a record
(`messages.rs` is not under `src/`); byte packing and the mac1/mac2 trailers
are outside the handshake core. -/
structure NoiseInitiation where
  f_type : Nat
  f_sender : Nat
  f_ephemeral : Bytes
  f_static : Bytes
  f_static_tag : Bytes
  f_timestamp : Bytes
  f_timestamp_tag : Bytes
deriving DecidableEq, Repr

/-- Modelled from the spec: the `Response` frame of §4.2 as a record
(`messages.rs` is not under `src/`). -/
structure NoiseResponse where
  f_type : Nat
  f_sender : Nat
  f_receiver : Nat
  f_ephemeral : Bytes
  f_empty_tag : Bytes
deriving DecidableEq, Repr

/-- `TYPE_INITIATION` of messages.rs. -/
def TYPE_INITIATION : Nat := 1

/-- `TYPE_RESPONSE` of messages.rs. -/
def TYPE_RESPONSE : Nat := 2

/-- Modelled from the spec: big-endian lexicographic strictly-greater on
equal-length TAI64N stamps (`timestamp.rs` is not under `src/`). -/
def tsGt : Bytes → Bytes → Bool
  | a :: xs, b :: ys => if b < a then true else if a < b then false else tsGt xs ys
  | _, _ => false

/-- Modelled from the spec: `peer.check_replay_flood` of §4.4 (`peer.rs` is
not under `src/`): reject `ReplayOrStale` unless `ts` is strictly greater than
`last_ts`, then reject `FloodLimited` if the budget is exhausted, else accept
and commit `last_ts := ts`. -/
def check_replay_flood (p : Peer) (ts : Bytes) : Except HandshakeError Peer :=
  if tsGt ts p.last_ts = false then .error .replayOrStale
  else if p.floodExhausted then .error .floodLimited
  else .ok { p with last_ts := ts }

/-- Modelled from the spec: search of the device's public-key index by exact
match (`device.lookup_pk`, `device.rs` is not under `src/`), returning the
position and the record. -/
def findPk : List Peer → Bytes → Option (Nat × Peer)
  | [], _ => none
  | p :: ps, pk =>
      if p.pk = pk then some (0, p)
      else (findPk ps pk).map (fun q => (q.1 + 1, q.2))

/-- Modelled from the spec: `device.lookup_pk`, failing with `UnknownPeer`
handled at the call site. -/
def lookup_pk (d : Device) (pk : Bytes) : Option (Nat × Peer) := findPk d.peers pk

/-- Modelled from the spec: `device.lookup_id` by 32-bit session identifier
(`device.rs` is not under `src/`). -/
def lookup_id (d : Device) (n : Nat) : Option (Nat × Peer) :=
  match d.ids.find? (fun q => q.1 == n) with
  | none => none
  | some q => (d.peers[q.2]?).map (fun p => (q.2, p))

/-- Decidable equality for `Except` values. -/
def exceptDecEq {e a : Type} [DecidableEq e] [DecidableEq a] :
    DecidableEq (Except e a) := fun x y =>
  match x, y with
  | .error u, .error v =>
      if h : u = v then .isTrue (by rw [h])
      else .isFalse (fun hc => by cases hc; exact h rfl)
  | .error _, .ok _ => .isFalse (fun hc => by cases hc)
  | .ok _, .error _ => .isFalse (fun hc => by cases hc)
  | .ok u, .ok v =>
      if h : u = v then .isTrue (by rw [h])
      else .isFalse (fun hc => by cases hc; exact h rfl)

instance {e a : Type} [DecidableEq e] [DecidableEq a] : DecidableEq (Except e a) :=
  exceptDecEq

/-- The `TemporaryState` alias of noise.rs:
`(sender id of the initiation, initiator ephemeral public, hs, ck)`. -/
abbrev Temporary := Nat × Bytes × Bytes × Bytes

instance : DecidableEq (Except HandshakeError (Nat × Temporary)) := exceptDecEq

instance : DecidableEq (Except HandshakeError (Option Nat × Option KeyPair)) :=
  exceptDecEq

instance : DecidableEq (Except HandshakeError (NoiseInitiation × Peer)) := exceptDecEq

instance : DecidableEq (Except HandshakeError (NoiseResponse × KeyPair)) := exceptDecEq

instance : DecidableEq (Except HandshakeError Bytes) := exceptDecEq

/-- `create_initiation` of noise.rs.  The rng-drawn ephemeral secret and the
`timestamp::now()` value are explicit arguments; the in-place message write
and the `peer.set_state` commit are returned as values. -/
def create_initiation (C : Crypto) (ephSk now : Bytes) (d : Device) (p : Peer)
    (sender : Nat) : Except HandshakeError (NoiseInitiation × Peer) :=
  let ck := INITIAL_CK
  let hs := INITIAL_HS
  let hs := C.hash (hs ++ p.pk)
  let ephPk := C.pubOf ephSk
  let ck := kdf1 C ck ephPk
  let fEphemeral := ephPk
  let hs := C.hash (hs ++ fEphemeral)
  let r1 := kdf2 C ck (C.dh ephSk p.pk)
  let s1 := C.aeadSeal r1.2 hs d.pk
  let hs := C.hash (hs ++ s1.1 ++ s1.2)
  let r2 := kdf2 C r1.1 p.ss
  let s2 := C.aeadSeal r2.2 hs now
  let hs := C.hash (hs ++ s2.1 ++ s2.2)
  .ok ({ f_type := TYPE_INITIATION, f_sender := sender, f_ephemeral := fEphemeral,
         f_static := s1.1, f_static_tag := s1.2,
         f_timestamp := s2.1, f_timestamp_tag := s2.2 },
       { p with st := .initiationSent hs r2.1 ephSk sender })

/-- The prefix of `consume_initiation` up to (not including) the static OPEN:
the running `(hs, ck, key)` after `KDF2(ck, DH(device.sk, msg.ephemeral))`. -/
def ci_prelude (C : Crypto) (d : Device) (msg : NoiseInitiation) :
    Bytes × Bytes × Bytes :=
  let ck := INITIAL_CK
  let hs := INITIAL_HS
  let hs := C.hash (hs ++ d.pk)
  let ck := kdf1 C ck msg.f_ephemeral
  let hs := C.hash (hs ++ msg.f_ephemeral)
  let r := kdf2 C ck (C.dh d.sk msg.f_ephemeral)
  (hs, r.1, r.2)

/-- The static-field OPEN of `consume_initiation`: the decrypted candidate
static public key, when the tag verifies. -/
def ci_static (C : Crypto) (d : Device) (msg : NoiseInitiation) : Option Bytes :=
  let pre := ci_prelude C d msg
  C.opn pre.2.2 pre.1 msg.f_static msg.f_static_tag

/-- The running `(hs, ck, key)` of `consume_initiation` after the static stage,
given the located peer (whose `ss` feeds the next KDF2). -/
def ci_mid (C : Crypto) (d : Device) (msg : NoiseInitiation) (p : Peer) :
    Bytes × Bytes × Bytes :=
  let pre := ci_prelude C d msg
  let hs := C.hash (pre.1 ++ msg.f_static ++ msg.f_static_tag)
  let r := kdf2 C pre.2.1 p.ss
  (hs, r.1, r.2)

/-- The timestamp OPEN of `consume_initiation`: the decrypted 12-byte
timestamp, when the tag verifies. -/
def ci_ts (C : Crypto) (d : Device) (msg : NoiseInitiation) (p : Peer) :
    Option Bytes :=
  let mid := ci_mid C d msg p
  C.opn mid.2.2 mid.1 msg.f_timestamp msg.f_timestamp_tag

/-- The final transcript hash of `consume_initiation`. -/
def ci_hsfinal (C : Crypto) (d : Device) (msg : NoiseInitiation) (p : Peer) :
    Bytes :=
  C.hash ((ci_mid C d msg p).1 ++ msg.f_timestamp ++ msg.f_timestamp_tag)

/-- `consume_initiation` of noise.rs: decrypt the static identity, locate the
peer by exact public-key match, decrypt and replay-check the timestamp, and
hand back the transient `(sender, ephemeral, hs, ck)`.  The in-place mutation
(the `last_ts` commit inside `check_replay_flood`) is returned as the second
component, which every error path leaves unchanged. -/
def consume_initiation (C : Crypto) (d : Device) (msg : NoiseInitiation) :
    Except HandshakeError (Nat × Temporary) × Device :=
  match ci_static C d msg with
  | none => (.error .decryptionFailure, d)
  | some pk =>
    match lookup_pk d pk with
    | none => (.error .unknownPeer, d)
    | some q =>
      match ci_ts C d msg q.2 with
      | none => (.error .decryptionFailure, d)
      | some ts =>
        match check_replay_flood q.2 ts with
        | .error e => (.error e, d)
        | .ok p2 =>
            (.ok (q.1, (msg.f_sender, msg.f_ephemeral, ci_hsfinal C d msg q.2,
                        (ci_mid C d msg q.2).2.1)),
             { d with peers := d.peers.set q.1 p2 })

/-- `create_response` of noise.rs.  The rng-drawn ephemeral secret is an
explicit argument; note `(key_recv, key_send) := KDF2(ck, [])` — the first
output is the receive key on this (responder) side. -/
def create_response (C : Crypto) (ephSk : Bytes) (p : Peer) (sender : Nat)
    (state : Temporary) : Except HandshakeError (NoiseResponse × KeyPair) :=
  let receiver := state.1
  let ephRPk := state.2.1
  let hs := state.2.2.1
  let ck := state.2.2.2
  let ephPk := C.pubOf ephSk
  let ck := kdf1 C ck ephPk
  let fEphemeral := ephPk
  let hs := C.hash (hs ++ fEphemeral)
  let ck := kdf1 C ck (C.dh ephSk ephRPk)
  let ck := kdf1 C ck (C.dh ephSk p.pk)
  let r3 := kdf3 C ck p.psk
  let hs := C.hash (hs ++ r3.2.1)
  let s1 := C.aeadSeal r3.2.2 hs []
  let r2 := kdf2 C r3.1 []
  .ok ({ f_type := TYPE_RESPONSE, f_sender := sender, f_receiver := receiver,
         f_ephemeral := fEphemeral, f_empty_tag := s1.2 },
       { confirmed := false,
         send := { id := sender, key := r2.2 },
         recv := { id := receiver, key := r2.1 } })

/-- `consume_response` of noise.rs.  Note `(key_send, key_recv) := KDF2(ck, [])`
— the assignment order is swapped relative to `create_response`.  The function
reads the peer state and mutates nothing; the device is returned unchanged on
every path. -/
def consume_response (C : Crypto) (d : Device) (msg : NoiseResponse) :
    Except HandshakeError (Option Nat × Option KeyPair) × Device :=
  match lookup_id d msg.f_receiver with
  | none => (.error .unknownId, d)
  | some q =>
    match q.2.st with
    | .reset => (.error .invalidState, d)
    | .initiationSent hs ck ephSk sender =>
      let ck := kdf1 C ck msg.f_ephemeral
      let hs := C.hash (hs ++ msg.f_ephemeral)
      let ephRPk := msg.f_ephemeral
      let ck := kdf1 C ck (C.dh ephSk ephRPk)
      let ck := kdf1 C ck (C.dh d.sk ephRPk)
      let r3 := kdf3 C ck q.2.psk
      let hs := C.hash (hs ++ r3.2.1)
      match C.opn r3.2.2 hs [] msg.f_empty_tag with
      | none => (.error .decryptionFailure, d)
      | some _ =>
        let r2 := kdf2 C r3.1 []
        (.ok (some q.2.identifier,
              some { confirmed := true,
                     send := { id := sender, key := r2.1 },
                     recv := { id := msg.f_sender, key := r2.2 } }), d)

/-- Modelled from the spec: `device_new` plus one `device_add_peer` of §6,
with `ss` precomputed as `DH(sk, peerPk)` per invariant 1, `last_ts`
initialised to the given stamp, the flood budget available, and the peer in
`Reset`. -/
def deviceWithPeer (C : Crypto) (sk peerPk q lts : Bytes) (ident : Nat) : Device :=
  { sk := sk, pk := C.pubOf sk,
    peers := [{ pk := peerPk, ss := C.dh sk peerPk, psk := q, last_ts := lts,
                floodExhausted := false, st := .reset, identifier := ident }],
    ids := [] }

/-- The composition of the four transitions as in §8 law 4: device `B`
initiates towards its (single) peer record, `A` consumes the initiation and
responds, `B` consumes the response.  The caller-side plumbing between calls
(storing the initiator's updated peer record and registering the chosen sender
identifier in the id index) follows §3 and §6. -/
def handshake_pipeline (C : Crypto) (ephI ephR ts : Bytes) (dA dB : Device)
    (senderA senderB : Nat) : Option (KeyPair × KeyPair) :=
  match dB.peers[0]? with
  | none => none
  | some pB =>
    match create_initiation C ephI ts dB pB senderB with
    | .error _ => none
    | .ok (m1, pB2) =>
      match consume_initiation C dA m1 with
      | (.error _, _) => none
      | (.ok (i, st), dA2) =>
        match dA2.peers[i]? with
        | none => none
        | some pA2 =>
          match create_response C ephR pA2 senderA st with
          | .error _ => none
          | .ok (m2, kpA) =>
            match consume_response C
                { dB with peers := dB.peers.set 0 pB2, ids := [(m2.f_receiver, 0)] } m2 with
            | (.ok (_, some kpB), _) => some (kpA, kpB)
            | _ => none

/-- A tiny concrete instantiation of the primitive bundle, used to evaluate
the handshake on concrete inputs: identity scalar-to-point map, commutative
toy DH, identity-keystream AEAD with an injective tag. -/
def toyC : Crypto where
  hash := fun bs => [bs.foldl (fun a b => (3 * a + b) % 1009) 7]
  hmac := fun k i => [(5 * k.foldl (fun a b => (3 * a + b) % 1009) 11 +
                       i.foldl (fun a b => (3 * a + b) % 1009) 13) % 1009]
  pubOf := fun s => s
  dh := fun a p => [(a.foldl (· + ·) 0) * (p.foldl (· + ·) 0) % 1009]
  aeadSeal := fun k ad pt => (pt, 1 :: (k ++ 2 :: ad ++ 3 :: pt))
  opn := fun k ad ct tag => if tag = 1 :: (k ++ 2 :: ad ++ 3 :: ct) then some ct else none

/-- Toy scenario: device `A` (responder), static secret `[2]`, knowing peer
`B = [3]` with PSK `[11]` and all-zero (length-1) `last_ts`. -/
def dAw : Device := deviceWithPeer toyC [2] [3] [11] [0] 32

/-- Toy scenario: device `B` (initiator), static secret `[3]`, knowing peer
`A = [2]`. -/
def dBw : Device := deviceWithPeer toyC [3] [2] [11] [0] 31

/-- Toy scenario: `B`'s peer record for `A` before the handshake. -/
def pBw : Peer :=
  { pk := [2], ss := [6], psk := [11], last_ts := [0],
    floodExhausted := false, st := .reset, identifier := 31 }

/-- Toy scenario: the initiation frame `B` emits with ephemeral `[5]`,
timestamp `[1]` and sender id `22`. -/
def m1w : NoiseInitiation :=
  { f_type := 1, f_sender := 22, f_ephemeral := [5], f_static := [3],
    f_static_tag := [1, 695, 2, 362, 3, 3],
    f_timestamp := [1], f_timestamp_tag := [1, 319, 2, 651, 3, 1] }

/-- Toy scenario: `A` after accepting the initiation (`last_ts` committed). -/
def dA2w : Device :=
  { sk := [2], pk := [2],
    peers := [{ pk := [3], ss := [6], psk := [11], last_ts := [1],
                floodExhausted := false, st := .reset, identifier := 32 }],
    ids := [] }

/-- Toy scenario: `A`'s peer record for `B` after the accepted initiation. -/
def pA2w : Peer :=
  { pk := [3], ss := [6], psk := [11], last_ts := [1],
    floodExhausted := false, st := .reset, identifier := 32 }

/-- Toy scenario: the transient state `consume_initiation` hands to
`create_response`. -/
def stw : Temporary := (22, [5], [1006], [60])

/-- Toy scenario: `B`'s peer record for `A` right after `create_initiation`
(state `InitiationSent`). -/
def pB2w : Peer :=
  { pk := [2], ss := [6], psk := [11], last_ts := [0], floodExhausted := false,
    st := .initiationSent [1006] [60] [5] 22, identifier := 31 }

/-- Toy scenario: `B`'s device awaiting the response, with sender id `22`
registered in the id index. -/
def dB2w : Device := { sk := [3], pk := [3], peers := [pB2w], ids := [(22, 0)] }

/-- Toy scenario: the response frame `A` emits with ephemeral `[7]` and
sender id `21`. -/
def m2w : NoiseResponse :=
  { f_type := 2, f_sender := 21, f_receiver := 22, f_ephemeral := [7],
    f_empty_tag := [1, 120, 2, 342, 3] }

/-- Toy scenario: the unconfirmed key pair `create_response` returns. -/
def kpAw : KeyPair :=
  { confirmed := false, send := { id := 21, key := [848] },
    recv := { id := 22, key := [949] } }

/-- Toy scenario: the confirmed key pair `consume_response` returns. -/
def kpBw : KeyPair :=
  { confirmed := true, send := { id := 22, key := [949] },
    recv := { id := 21, key := [848] } }

/-- Toy scenario: the initiation with a corrupted static tag (the static OPEN
fails). -/
def m1bad : NoiseInitiation := { m1w with f_static_tag := [0] }

/-- Toy scenario: an initiation whose static field decrypts (valid tag) to the
public key `[9]`, which no peer of `A` has. -/
def m1unk : NoiseInitiation :=
  { m1w with f_static := [9], f_static_tag := [1, 695, 2, 362, 3, 9] }

/-- Toy scenario: the response with a corrupted empty tag. -/
def m2bad : NoiseResponse := { m2w with f_empty_tag := [0] }

/-- An all-zero 32-byte AEAD key, used as a concrete divergence input. -/
def zkey : Bytes := List.replicate 32 0

/-- The toy DH is commutative, as X25519 is. -/
theorem toy_dh_comm (a b : Bytes) : toyC.dh a (toyC.pubOf b) = toyC.dh b (toyC.pubOf a) := by
  simp [toyC, Nat.mul_comm]

/-- The toy AEAD opens its own sealings. -/
theorem toy_opn_aeadSeal (k ad pt : Bytes) :
    toyC.opn k ad (toyC.aeadSeal k ad pt).1 (toyC.aeadSeal k ad pt).2 = some pt := by
  simp [toyC]

/-- The toy AEAD produces an empty ciphertext from an empty plaintext. -/
theorem toy_aeadSeal_empty (k ad : Bytes) : (toyC.aeadSeal k ad []).1 = [] := by
  simp [toyC]

/-- Lexicographic strictly-greater is irreflexive. -/
theorem tsGt_irrefl (ts : Bytes) : tsGt ts ts = false := by
  induction ts with
  | nil => rfl
  | cons a xs ih => simp [tsGt, ih]

/-- Replacing the found record by one with the same public key does not move
the search result of the public-key index. -/
theorem findPk_set (l : List Peer) (pk : Bytes) (i : Nat) (p p2 : Peer)
    (hf : findPk l pk = some (i, p)) (hpk : p2.pk = p.pk) :
    findPk (l.set i p2) pk = some (i, p2) := by
  induction l generalizing i with
  | nil => simp [findPk] at hf
  | cons x xs ih =>
    by_cases hx : x.pk = pk
    · simp [findPk, hx] at hf
      obtain ⟨hi, hp⟩ := hf
      subst hi
      subst hp
      simp [findPk, hpk, hx]
    · simp [findPk, hx, Option.map_eq_some', Prod.mk.injEq] at hf
      obtain ⟨j, hj, hji⟩ := hf
      cases i with
      | zero => exact absurd hji (by omega)
      | succ n =>
        have hn : j = n := by omega
        subst hn
        simp [List.set, findPk, hx, ih j hj]

/-- `check_replay_flood` only fails with `ReplayOrStale` or `FloodLimited`. -/
theorem check_replay_flood_error (p : Peer) (ts : Bytes) (e : HandshakeError)
    (h : check_replay_flood p ts = .error e) :
    e = .replayOrStale ∨ e = .floodLimited := by
  unfold check_replay_flood at h
  split at h
  · exact Or.inl (by cases h; rfl)
  · split at h
    · exact Or.inr (by cases h; rfl)
    · cases h

/-- On acceptance, `check_replay_flood` commits the presented stamp. -/
theorem check_replay_flood_ok (p p2 : Peer) (ts : Bytes)
    (h : check_replay_flood p ts = .ok p2) :
    p2 = { p with last_ts := ts } ∧ tsGt ts p.last_ts = true ∧
      p.floodExhausted = false := by
  unfold check_replay_flood at h
  split at h
  · cases h
  · next hts =>
    split at h
    · cases h
    · next hfl => exact ⟨by cases h; rfl, by simpa using hts, by simpa using hfl⟩

/-- `consume_response` returns the device unchanged on every path. -/
theorem consume_response_snd (C : Crypto) (d : Device) (msg : NoiseResponse) :
    (consume_response C d msg).2 = d := by
  unfold consume_response
  split
  · rfl
  · split
    · rfl
    · dsimp only
      split <;> rfl

/-- Every error path of `consume_initiation` returns the device unchanged. -/
theorem consume_initiation_snd_error (C : Crypto) (d : Device)
    (msg : NoiseInitiation) (e : HandshakeError)
    (h : (consume_initiation C d msg).1 = .error e) :
    (consume_initiation C d msg).2 = d := by
  rcases h1 : ci_static C d msg with _ | pk
  · simp [consume_initiation, h1]
  · rcases h2 : lookup_pk d pk with _ | q
    · simp [consume_initiation, h1, h2]
    · rcases h3 : ci_ts C d msg q.2 with _ | ts
      · simp [consume_initiation, h1, h2, h3]
      · rcases h4 : check_replay_flood q.2 ts with e2 | p2
        · simp [consume_initiation, h1, h2, h3, h4]
        · simp [consume_initiation, h1, h2, h3, h4] at h

/-- Claim C4: for every key and input, KDF1, KDF2 and KDF3 compute exactly
`t0 = HMAC(key, input)`, `t1 = HMAC(t0, 0x01)`, `t2 = HMAC(t0, t1 ‖ 0x02)`,
`t3 = HMAC(t0, t2 ‖ 0x03)` — the single byte appended after the prior `t` —
returning `(t1)`, `(t1, t2)`, `(t1, t2, t3)` respectively, so the three KDFs
agree on their shared prefix outputs. -/
theorem claim_c4 (C : Crypto) (ck input : Bytes) :
    kdf1 C ck input = (kdfSpecChain C ck input).2.1 ∧
    kdf2 C ck input = ((kdfSpecChain C ck input).2.1, (kdfSpecChain C ck input).2.2.1) ∧
    kdf3 C ck input = ((kdfSpecChain C ck input).2.1, (kdfSpecChain C ck input).2.2.1,
                       (kdfSpecChain C ck input).2.2.2) ∧
    (kdf2 C ck input).1 = kdf1 C ck input ∧
    (kdf3 C ck input).1 = (kdf2 C ck input).1 ∧
    (kdf3 C ck input).2.1 = (kdf2 C ck input).2 :=
  ⟨rfl, rfl, rfl, rfl, rfl, rfl⟩

/-- Claim C9: `create_initiation` and `create_response` can never fail — for
every primitive suite, device, peer, sender identifier, ephemeral draw,
timestamp, and transient state, both return `Ok`. -/
theorem claim_c9 (C : Crypto) (ephSk now ephSk2 : Bytes) (d : Device)
    (p p2 : Peer) (sender sender2 : Nat) (st : Temporary) :
    (∃ v, create_initiation C ephSk now d p sender = .ok v) ∧
    (∃ w, create_response C ephSk2 p2 sender2 st = .ok w) :=
  ⟨⟨_, rfl⟩, ⟨_, rfl⟩⟩

/-- Claim C8: the key pair returned by `create_response` always has
`confirmed = false`, and the key pair returned by a successful
`consume_response` always has `confirmed = true`. -/
theorem claim_c8 :
    (∀ (C : Crypto) (ephSk : Bytes) (p : Peer) (sender : Nat) (st : Temporary)
        (m : NoiseResponse) (kp : KeyPair),
        create_response C ephSk p sender st = .ok (m, kp) → kp.confirmed = false) ∧
    (∀ (C : Crypto) (d : Device) (msg : NoiseResponse) (oid : Option Nat)
        (kp : KeyPair) (d2 : Device),
        consume_response C d msg = (.ok (oid, some kp), d2) → kp.confirmed = true) := by
  constructor
  · intro C ephSk p sender st m kp h
    simp only [create_response, Except.ok.injEq, Prod.mk.injEq] at h
    obtain ⟨-, h2⟩ := h
    subst h2
    rfl
  · intro C d msg oid kp d2 h
    rcases hl : lookup_id d msg.f_receiver with _ | q
    · simp [consume_response, hl] at h
    · rcases hst : q.2.st with _ | ⟨hs1, ck1, es1, sn1⟩
      · simp [consume_response, hl, hst] at h
      · simp only [consume_response, hl, hst] at h
        split at h
        · simp at h
        · simp only [Prod.mk.injEq, Except.ok.injEq, Option.some.injEq] at h
          obtain ⟨⟨-, h2⟩, -⟩ := h
          subst h2
          rfl

/-- Claim C10: `consume_response` is a pure reader — a successful call leaves
the device (hence every peer field) unchanged, so consuming the same response
again on the resulting state succeeds with the identical output. -/
theorem claim_c10 (C : Crypto) (d : Device) (msg : NoiseResponse)
    (r : Option Nat × Option KeyPair) (d1 : Device)
    (h : consume_response C d msg = (.ok r, d1)) :
    d1 = d ∧ consume_response C d1 msg = (.ok r, d1) := by
  have hd : d1 = d := by
    have h2 := consume_response_snd C d msg
    rw [h] at h2
    exact h2
  subst hd
  exact ⟨rfl, h⟩

/-- Claim C2 (amended): a successful `consume_response` leaves the peer's
state unchanged — the device is returned as it was, and the peer found by the
receiver id is still in `InitiationSent` (no transition to `Reset` happens and
the ephemeral secret stays held). -/
theorem claim_c2_amended (C : Crypto) (d : Device) (msg : NoiseResponse)
    (r : Option Nat × Option KeyPair) (d1 : Device)
    (h : consume_response C d msg = (.ok r, d1)) :
    d1 = d ∧ ∃ i p hs ck ephSk sender,
      lookup_id d1 msg.f_receiver = some (i, p) ∧
      p.st = HState.initiationSent hs ck ephSk sender := by
  have hd : d1 = d := by
    have h2 := consume_response_snd C d msg
    rw [h] at h2
    exact h2
  subst hd
  refine ⟨rfl, ?_⟩
  rcases hl : lookup_id d1 msg.f_receiver with _ | q
  · simp [consume_response, hl] at h
  · rcases hst : q.2.st with _ | ⟨hs1, ck1, es1, sn1⟩
    · simp [consume_response, hl, hst] at h
    · exact ⟨q.1, q.2, hs1, ck1, es1, sn1, by simp [hl], hst⟩

/-- Claim C7: no transition mutates handshake state on an error outcome — the
two creators have no error outcomes at all, and both consumers return the
device exactly as it was whenever they return any error. -/
theorem claim_c7 :
    (∀ (C : Crypto) (ephSk now : Bytes) (d : Device) (p : Peer) (sender : Nat)
        (err : HandshakeError),
        create_initiation C ephSk now d p sender ≠ .error err) ∧
    (∀ (C : Crypto) (ephSk : Bytes) (p : Peer) (sender : Nat) (st : Temporary)
        (err : HandshakeError),
        create_response C ephSk p sender st ≠ .error err) ∧
    (∀ (C : Crypto) (d : Device) (msg : NoiseInitiation) (err : HandshakeError),
        (consume_initiation C d msg).1 = .error err →
        (consume_initiation C d msg).2 = d) ∧
    (∀ (C : Crypto) (d : Device) (msg : NoiseResponse) (err : HandshakeError),
        (consume_response C d msg).1 = .error err →
        (consume_response C d msg).2 = d) := by
  refine ⟨?_, ?_, ?_, ?_⟩
  · intro C ephSk now d p sender err h
    simp [create_initiation] at h
  · intro C ephSk p sender st err h
    simp [create_response] at h
  · exact consume_initiation_snd_error
  · intro C d msg err _
    exact consume_response_snd C d msg

/-- Claim C5: in `consume_initiation` the peer is identified only from the
decrypted static field — a failed static OPEN yields `DecryptionFailure`
(never `UnknownPeer`), a successful OPEN whose candidate key is not in the
index yields `UnknownPeer`, and when the candidate key is in the index the
call never fails with `UnknownPeer`. -/
theorem claim_c5 (C : Crypto) (d : Device) (msg : NoiseInitiation) :
    (ci_static C d msg = none →
      (consume_initiation C d msg).1 = .error .decryptionFailure) ∧
    (∀ pk, ci_static C d msg = some pk → lookup_pk d pk = none →
      (consume_initiation C d msg).1 = .error .unknownPeer) ∧
    (∀ pk i p, ci_static C d msg = some pk → lookup_pk d pk = some (i, p) →
      (consume_initiation C d msg).1 ≠ .error .unknownPeer) := by
  refine ⟨?_, ?_, ?_⟩
  · intro h1
    simp [consume_initiation, h1]
  · intro pk h1 h2
    simp [consume_initiation, h1, h2]
  · intro pk i p h1 h2 hcontra
    rcases h3 : ci_ts C d msg p with _ | ts
    · simp [consume_initiation, h1, h2, h3] at hcontra
    · rcases h4 : check_replay_flood p ts with er | p2
      · have her := check_replay_flood_error p ts er h4
        simp [consume_initiation, h1, h2, h3, h4] at hcontra
        subst hcontra
        simp at her
      · simp [consume_initiation, h1, h2, h3, h4] at hcontra

/-- Claim C6: any initiation whose decrypted timestamp is not strictly greater
(big-endian lexicographic) than the stored `last_ts` is rejected with
`ReplayOrStale`, and replaying an accepted initiation against the resulting
device state is rejected with `ReplayOrStale`. -/
theorem claim_c6 :
    (∀ (C : Crypto) (d : Device) (msg : NoiseInitiation) (pk : Bytes) (i : Nat)
        (p : Peer) (ts : Bytes),
        ci_static C d msg = some pk → lookup_pk d pk = some (i, p) →
        ci_ts C d msg p = some ts → tsGt ts p.last_ts = false →
        (consume_initiation C d msg).1 = .error .replayOrStale) ∧
    (∀ (C : Crypto) (d : Device) (msg : NoiseInitiation) (i : Nat)
        (st : Temporary) (d2 : Device),
        consume_initiation C d msg = (.ok (i, st), d2) →
        (consume_initiation C d2 msg).1 = .error .replayOrStale) := by
  constructor
  · intro C d msg pk i p ts h1 h2 h3 h4
    simp [consume_initiation, h1, h2, h3, check_replay_flood, h4]
  · intro C d msg i st d2 h
    rcases h1 : ci_static C d msg with _ | pk
    · simp [consume_initiation, h1] at h
    · rcases h2 : lookup_pk d pk with _ | q
      · simp [consume_initiation, h1, h2] at h
      · rcases h3 : ci_ts C d msg q.2 with _ | ts
        · simp [consume_initiation, h1, h2, h3] at h
        · rcases h4 : check_replay_flood q.2 ts with er | p2
          · simp [consume_initiation, h1, h2, h3, h4] at h
          · obtain ⟨hp2, hts2, hfl⟩ := check_replay_flood_ok q.2 p2 ts h4
            subst hp2
            simp only [consume_initiation, h1, h2, h3, h4, Prod.mk.injEq,
              Except.ok.injEq] at h
            obtain ⟨-, hdev⟩ := h
            subst hdev
            have e2 : lookup_pk
                { d with peers := d.peers.set q.1 { q.2 with last_ts := ts } } pk =
                some (q.1, { q.2 with last_ts := ts }) :=
              findPk_set d.peers pk q.1 q.2 { q.2 with last_ts := ts } h2 rfl
            have e4 : check_replay_flood { q.2 with last_ts := ts } ts =
                .error .replayOrStale := by
              simp [check_replay_flood, tsGt_irrefl]
            have e1 : ci_static C
                { d with peers := d.peers.set q.1 { q.2 with last_ts := ts } } msg =
                some pk := h1
            have e3 : ci_ts C
                { d with peers := d.peers.set q.1 { q.2 with last_ts := ts } } msg
                { q.2 with last_ts := ts } = some ts := h3
            simp [consume_initiation, e1, e2, e3, e4]

set_option exponentiation.threshold 1024 in
set_option maxRecDepth 100000 in
/-- Claim C3 (divergence witness): at the zero key, empty associated data and
the one-byte plaintext `[0]`, the SEAL! macro (libsodium's legacy
`chacha20poly1305` under the 8-byte `ZERO_NONCE`) produces the same ciphertext
byte as IETF ChaCha20-Poly1305 under the 12-byte zero nonce, but a different
16-byte tag, and the OPEN! macro rejects the IETF output — so SEAL/OPEN do
not compute the IETF form the specification names. -/
theorem claim_c3 :
    (SEAL zkey [] [0]).1 = (ietf_seal zkey ZERO_NONCE_IETF [] [0]).1 ∧
    (SEAL zkey [] [0]).2 ≠ (ietf_seal zkey ZERO_NONCE_IETF [] [0]).2 ∧
    OPEN zkey [] (ietf_seal zkey ZERO_NONCE_IETF [] [0]).1
      (ietf_seal zkey ZERO_NONCE_IETF [] [0]).2 = .error .decryptionFailure := by
  decide

set_option maxHeartbeats 1000000 in
/-- Claim C1: for any mutually configured device pair with identical PSK and
matching static keys (over any primitive suite whose DH commutes on public
keys and whose AEAD opens its own sealings), the full exchange
`B.create_initiation → A.consume_initiation → A.create_response →
B.consume_response` succeeds, and the two key pairs cross-match byte for
byte: `A.send = B.recv` and `A.recv = B.send` (the KDF2 output order is
swapped between `create_response` and `consume_response`). -/
theorem claim_c1 (C : Crypto)
    (hdh : ∀ a b, C.dh a (C.pubOf b) = C.dh b (C.pubOf a))
    (hopn : ∀ k ad pt, C.opn k ad (C.aeadSeal k ad pt).1 (C.aeadSeal k ad pt).2 = some pt)
    (hemp : ∀ k ad, (C.aeadSeal k ad []).1 = [])
    (ask bsk ephI ephR q ts lts : Bytes) (senderA senderB idA idB : Nat)
    (hts : tsGt ts lts = true) :
    ∃ kA kB,
      handshake_pipeline C ephI ephR ts
        (deviceWithPeer C ask (C.pubOf bsk) q lts idB)
        (deviceWithPeer C bsk (C.pubOf ask) q lts idA) senderA senderB = some (kA, kB) ∧
      kA.send.key = kB.recv.key ∧ kA.recv.key = kB.send.key := by
  have hopn2 : ∀ k ad, C.opn k ad [] (C.aeadSeal k ad []).2 = some [] := by
    intro k ad
    have h := hopn k ad []
    rwa [hemp k ad] at h
  simp only [handshake_pipeline, deviceWithPeer, create_initiation, consume_initiation,
    ci_static, ci_prelude, ci_mid, ci_ts, ci_hsfinal, lookup_pk, findPk, lookup_id,
    check_replay_flood, create_response, consume_response,
    hdh ask ephI, hdh ask bsk, hdh ephR ephI, hdh ephR bsk, hopn, hopn2, hts,
    List.getElem?_cons_zero, List.set_cons_zero, List.find?, eq_self_iff_true,
    if_true, ite_true, beq_self_eq_true, Option.map_none', Option.map_some',
    Bool.true_eq_false, Bool.false_eq_true, if_false, ite_false]
  exact ⟨_, _, rfl, rfl, rfl⟩

/-- Claim C2 (counterexample): in the toy scenario, `consume_response`
succeeds on device `B` yet the peer's state is returned unchanged — still
`InitiationSent`, not `Reset`. -/
theorem claim_c2_counterexample :
    consume_response toyC dB2w m2w = (.ok (some 31, some kpBw), dB2w) ∧
    (dB2w.peers.getD 0 pB2w).st ≠ HState.reset := by
  decide

/-- Witness for claim C1 at the toy primitive suite. -/
theorem claim_c1_witness :
    (handshake_pipeline toyC [5] [7] [1]
      (deviceWithPeer toyC [2] (toyC.pubOf [3]) [11] [0] 32)
      (deviceWithPeer toyC [3] (toyC.pubOf [2]) [11] [0] 31) 21 22).isSome = true := by
  obtain ⟨kA, kB, h, -, -⟩ := claim_c1 toyC toy_dh_comm toy_opn_aeadSeal toy_aeadSeal_empty
    [2] [3] [5] [7] [11] [1] [0] 21 22 31 32 (by decide)
  rw [h]
  rfl

/-- Witness for the amended claim C2 at the toy scenario. -/
theorem claim_c2_witness : dB2w = dB2w :=
  (claim_c2_amended toyC dB2w m2w (some 31, some kpBw) dB2w (by decide)).1

/-- Witness for claim C5: a corrupted static tag gives `DecryptionFailure`,
and a validly sealed unknown static key gives `UnknownPeer`. -/
theorem claim_c5_witness :
    (consume_initiation toyC dAw m1bad).1 = .error .decryptionFailure ∧
    (consume_initiation toyC dAw m1unk).1 = .error .unknownPeer :=
  ⟨(claim_c5 toyC dAw m1bad).1 (by decide),
   (claim_c5 toyC dAw m1unk).2.1 [9] (by decide) (by decide)⟩

/-- Witness for claim C6: replaying the accepted toy initiation is rejected
with `ReplayOrStale`. -/
theorem claim_c6_witness :
    (consume_initiation toyC dA2w m1w).1 = .error .replayOrStale :=
  claim_c6.2 toyC dAw m1w 0 stw dA2w (by decide)

/-- Witness for claim C7 at concrete toy error paths. -/
theorem claim_c7_witness :
    create_initiation toyC [5] [1] dBw pBw 22 ≠ .error .unknownPeer ∧
    create_response toyC [7] pA2w 21 stw ≠ .error .unknownPeer ∧
    (consume_initiation toyC dAw m1bad).2 = dAw ∧
    (consume_response toyC dB2w m2bad).2 = dB2w :=
  ⟨claim_c7.1 toyC [5] [1] dBw pBw 22 .unknownPeer,
   claim_c7.2.1 toyC [7] pA2w 21 stw .unknownPeer,
   claim_c7.2.2.1 toyC dAw m1bad .decryptionFailure (by decide),
   claim_c7.2.2.2 toyC dB2w m2bad .decryptionFailure (by decide)⟩

/-- Witness for claim C8 at the toy scenario. -/
theorem claim_c8_witness : kpAw.confirmed = false ∧ kpBw.confirmed = true :=
  ⟨claim_c8.1 toyC [7] pA2w 21 stw m2w kpAw (by decide),
   claim_c8.2 toyC dB2w m2w (some 31) kpBw dB2w (by decide)⟩

/-- Witness for claim C10 at the toy scenario. -/
theorem claim_c10_witness :
    dB2w = dB2w ∧ consume_response toyC dB2w m2w = (.ok (some 31, some kpBw), dB2w) :=
  claim_c10 toyC dB2w m2w (some 31, some kpBw) dB2w (by decide)
